import Mathlib

/-!
Verification of the training-output parser and run-outcome reporting of the
`yologui` repository (`src/training.py`), against its natural-language
specification.

The embedding translates, line by line, the Python code of
`TrainingThread.run` (terminal-outcome reporting) and
`TrainingManager.process_progress_line` (the per-line progress extractor),
including the five regular expressions it applies and the exception paths
(`float()` value errors and division by zero inside the `try`/`except`).

Machine floats are modelled as exact rationals (`ℚ`); the decimal literals the
parser extracts (e.g. `0.431`) are represented exactly.  Python `re` matching
is modelled by a small backtracking engine with Python's leftmost /
greedy-with-backtracking semantics; the character classes `\d` and `\s` are
modelled by their ASCII meaning (every concrete line considered here is
ASCII-classified the same way by Python).
-/

namespace Yologui

/-! ### Character classes used by the five patterns in `process_progress_line` -/

/-- `\d` (ASCII). -/
def isDigitC (c : Char) : Bool := c.isDigit

/-- `\s` (ASCII): space, tab, newline, carriage return, form feed, vertical tab. -/
def isSpaceC (c : Char) : Bool :=
  c = ' ' || c = '\t' || c = '\n' || c = '\r' || c = '\x0b' || c = '\x0c'

/-- `[\d\.]` / `[0-9\.]`. -/
def isDigitDot (c : Char) : Bool := isDigitC c || c = '.'

/-- `[^|]`. -/
def isNonPipe (c : Char) : Bool := c ≠ '|'

/-- `[^\s]`. -/
def isNonWs (c : Char) : Bool := ¬ isSpaceC c

/-- `.` — any character except a newline (no `re.DOTALL`). -/
def isAnyC (c : Char) : Bool := c ≠ '\n'

/-! ### A small regex core

Just the constructs the five patterns need: literals, single-character
classes, greedy `*` and `+` over a class, sequencing and numbered capturing
groups.  The matcher below implements Python's backtracking search order:
greedy repetition tries the longest extent first and backtracks, and
`re.search` returns the leftmost successful start position. -/

inductive RE where
  | lit (cs : List Char)
  | cls (p : Char → Bool)
  | star (p : Char → Bool)
  | plus (p : Char → Bool)
  | seq (r1 r2 : RE)
  | grp (n : Nat) (r : RE)

/-- Sequence a list of regex pieces. -/
def seqAll (rs : List RE) : RE := rs.foldr RE.seq (RE.lit [])

/-- Captured groups: group number paired with the captured characters.
The most recent capture of a group is the first hit of `capGet`. -/
abbrev Caps := List (Nat × List Char)

/-- Strip an expected literal from the front of the input. -/
def dropLit : List Char → List Char → Option (List Char)
  | [], s => some s
  | _ :: _, [] => none
  | p :: ps, c :: cs => if c = p then dropLit ps cs else none

/-- Try `k (base + n - 1)`, `k (base + n - 2)`, …, `k base`, returning the
first success.  Used to realise greedy (longest-first) repetition. -/
def tryCount (k : Nat → Option Caps) (base : Nat) : Nat → Option Caps
  | 0 => none
  | n + 1 =>
    match k (base + n) with
    | some r => some r
    | none => tryCount k base n

/-- Backtracking matcher in continuation-passing style.  `matchRE r s caps k`
matches `r` at the start of `s` and hands the remaining input and updated
captures to `k`; repetition backtracks from the greediest extent. -/
def matchRE : RE → List Char → Caps → (List Char → Caps → Option Caps) → Option Caps
  | .lit cs, s, caps, k =>
    match dropLit cs s with
    | some s' => k s' caps
    | none => none
  | .cls p, s, caps, k =>
    match s with
    | [] => none
    | c :: s' => if p c then k s' caps else none
  | .star p, s, caps, k =>
    tryCount (fun i => k (s.drop i) caps) 0 ((s.takeWhile p).length + 1)
  | .plus p, s, caps, k =>
    tryCount (fun i => k (s.drop (i + 1)) caps) 0 (s.takeWhile p).length
  | .seq r1 r2, s, caps, k =>
    matchRE r1 s caps (fun s' caps' => matchRE r2 s' caps' k)
  | .grp n r, s, caps, k =>
    matchRE r s caps (fun s' caps' => k s' ((n, s.take (s.length - s'.length)) :: caps'))

/-- Match anchored at the current position (Python `^…` with no `re.MULTILINE`
matches at position 0 only). -/
def matchAt (r : RE) (s : List Char) : Option Caps :=
  matchRE r s [] (fun _ caps => some caps)

/-- `re.search`: try every start position left to right, first success wins. -/
def searchRE (r : RE) (s : List Char) : Option Caps :=
  match matchAt r s with
  | some caps => some caps
  | none =>
    match s with
    | [] => none
    | _ :: s' => searchRE r s'

/-- Look up a captured group (most recent capture first). -/
def capGet (caps : Caps) (n : Nat) : Option (List Char) :=
  (List.find? (fun x => x.1 == n) caps).map (fun x => x.2)

/-- Python `pat in line` substring test. -/
def containsSub (pat s : List Char) : Bool :=
  (searchRE (.lit pat) s).isSome

/-! ### Numeric conversions -/

/-- `int()` on a `\d+` capture (always a non-empty digit string). -/
def natOfDigits (cs : List Char) : Nat :=
  cs.foldl (fun a c => a * 10 + (c.toNat - '0'.toNat)) 0

/-- Python `float()` on a string drawn from the class `[0-9\.]+`, as an exact
rational: accepts at most one dot and at least one digit (`"1."`, `".5"`,
`"431"`, `"0.431"`), raises — here: `none` — otherwise (`"."`, `"1.2.3"`). -/
def pyFloatQ (cs : List Char) : Option ℚ :=
  if cs.count '.' = 0 then
    if cs ≠ [] ∧ cs.all isDigitC then some (natOfDigits cs : ℚ) else none
  else if cs.count '.' = 1 then
    let ip := cs.takeWhile (fun c => c ≠ '.')
    let fp := (cs.dropWhile (fun c => c ≠ '.')).tail
    if (ip ++ fp) ≠ [] ∧ (ip ++ fp).all isDigitC then
      some ((natOfDigits ip : ℚ) + (natOfDigits fp : ℚ) / (10 ^ fp.length))
    else none
  else none

/-- Two-digit field of Python's `str(timedelta)` rendering. -/
def twoDigits (n : Nat) : String :=
  if n < 10 then "0" ++ toString n else toString n

/-- `str(timedelta(minutes=m, seconds=s))` for non-negative integers:
`"H:MM:SS"`, preceded by a day count when the total reaches a day. -/
def pyTDStr (m s : Nat) : String :=
  let total := m * 60 + s
  let d := total / 86400
  let rest := total % 86400
  let core := toString (rest / 3600) ++ ":" ++ twoDigits (rest % 3600 / 60) ++ ":"
    ++ twoDigits (rest % 60)
  if d = 0 then core
  else if d = 1 then "1 day, " ++ core
  else toString d ++ " days, " ++ core

/-! ### The five patterns of `TrainingManager.process_progress_line` -/

/-- `r"Results saved to\s+([^\s]+)"` (training.py line 347). -/
def resultsRE : RE :=
  seqAll [.lit "Results saved to".data, .plus isSpaceC, .grp 1 (.plus isNonWs)]

/-- `r"^(\d+)/(\d+)\s+[\d\.]+G\s+([0-9\.]+)\s+\d+\s+\d+:\s+(\d+)%\|[^|]*\|\s*(\d+)/(\d+)"`
(training.py line 354). -/
def epochRE : RE :=
  seqAll [.grp 1 (.plus isDigitC), .lit ['/'], .grp 2 (.plus isDigitC),
    .plus isSpaceC, .plus isDigitDot, .lit ['G'],
    .plus isSpaceC, .grp 3 (.plus isDigitDot),
    .plus isSpaceC, .plus isDigitC, .plus isSpaceC, .plus isDigitC, .lit [':'],
    .plus isSpaceC, .grp 4 (.plus isDigitC), .lit ['%', '|'],
    .star isNonPipe, .lit ['|'], .star isSpaceC,
    .grp 5 (.plus isDigitC), .lit ['/'], .grp 6 (.plus isDigitC)]

/-- `r"\[(\d+):(\d+)<(\d+):(\d+)"` (training.py line 383). -/
def timeRE : RE :=
  seqAll [.lit ['['], .grp 1 (.plus isDigitC), .lit [':'], .grp 2 (.plus isDigitC),
    .lit ['<'], .grp 3 (.plus isDigitC), .lit [':'], .grp 4 (.plus isDigitC)]

/-- `r"all\s+(\d+\.\d+)\s+(\d+\.\d+)"` (training.py line 408). -/
def finalRE : RE :=
  seqAll [.lit "all".data, .plus isSpaceC,
    .grp 1 (seqAll [.plus isDigitC, .lit ['.'], .plus isDigitC]),
    .plus isSpaceC,
    .grp 2 (seqAll [.plus isDigitC, .lit ['.'], .plus isDigitC])]

/-- `r"mAP50-95\s+([0-9\.]+).+mAP50\s+([0-9\.]+)"` (training.py line 426). -/
def mapRE : RE :=
  seqAll [.lit "mAP50-95".data, .plus isSpaceC, .grp 1 (.plus isDigitDot),
    .plus isAnyC, .lit "mAP50".data, .plus isSpaceC, .grp 2 (.plus isDigitDot)]

/-- `r"precision\s+([0-9\.]+).+recall\s+([0-9\.]+)"` (training.py line 437). -/
def prRE : RE :=
  seqAll [.lit "precision".data, .plus isSpaceC, .grp 1 (.plus isDigitDot),
    .plus isAnyC, .lit "recall".data, .plus isSpaceC, .grp 2 (.plus isDigitDot)]

/-! The `r"classes\s+top1_acc\s+top5_acc"` pattern (training.py lines 402-405)
is matched and then followed by `pass`: it has no effect on state or
snapshot, so it needs no embedding. -/

/-- `re.search(resultsRE, line).group(1)`: the captured path, if the search
succeeds at all (on success group 1 is always bound). -/
def resultsSearch (cs : List Char) : Option (List Char) :=
  (searchRE resultsRE cs).bind (fun caps => capGet caps 1)

/-- The six groups of a (position-0 anchored) epoch-line match, converted the
way lines 359-372 convert them: `int` on groups 1, 2, 4, 5, 6; group 3 (the
loss) kept raw because `float()` on it can raise.  On a successful match all
six groups are always bound (each is a mandatory `+` group). -/
def epochGroups (cs : List Char) :
    Option (Nat × Nat × List Char × Nat × Nat × Nat) :=
  match matchAt epochRE cs with
  | none => none
  | some caps =>
    match capGet caps 1, capGet caps 2, capGet caps 3,
        capGet caps 4, capGet caps 5, capGet caps 6 with
    | some g1, some g2, some g3, some g4, some g5, some g6 =>
      some (natOfDigits g1, natOfDigits g2, g3, natOfDigits g4,
        natOfDigits g5, natOfDigits g6)
    | _, _, _, _, _, _ => none

/-- The four integer groups of the elapsed/remaining time match (lines 383-389). -/
def timeGroups (cs : List Char) : Option (Nat × Nat × Nat × Nat) :=
  match searchRE timeRE cs with
  | none => none
  | some caps =>
    match capGet caps 1, capGet caps 2, capGet caps 3, capGet caps 4 with
    | some a, some b, some c, some d =>
      some (natOfDigits a, natOfDigits b, natOfDigits c, natOfDigits d)
    | _, _, _, _ => none

/-- The two raw groups of the final-metrics match (line 409). -/
def finalGroups (cs : List Char) : Option (List Char × List Char) :=
  match searchRE finalRE cs with
  | none => none
  | some caps =>
    match capGet caps 1, capGet caps 2 with
    | some a, some b => some (a, b)
    | _, _ => none

/-- The two raw groups of the mAP match (line 427). -/
def mapGroups (cs : List Char) : Option (List Char × List Char) :=
  match searchRE mapRE cs with
  | none => none
  | some caps =>
    match capGet caps 1, capGet caps 2 with
    | some a, some b => some (a, b)
    | _, _ => none

/-- The two raw groups of the precision/recall match (line 438). -/
def prGroups (cs : List Char) : Option (List Char × List Char) :=
  match searchRE prRE cs with
  | none => none
  | some caps =>
    match capGet caps 1, capGet caps 2 with
    | some a, some b => some (a, b)
    | _, _ => none

/-! ### Data model of the training manager -/

/-- The metric keys `process_progress_line` ever writes into
`self.current_metrics`; `none` means the key is absent from the dict. -/
structure Metrics where
  loss : Option ℚ := none
  top1_acc : Option ℚ := none
  top5_acc : Option ℚ := none
  mAP50_95 : Option ℚ := none
  mAP50 : Option ℚ := none
  precision : Option ℚ := none
  «recall» : Option ℚ := none
deriving DecidableEq

/-- The mutable state of `TrainingManager` that `process_progress_line`
reads and writes (`__init__`, training.py lines 104-111). -/
structure MState where
  current_epoch : Nat
  total_epochs : Nat
  current_metrics : Metrics
  training_dir : List Char
deriving DecidableEq

/-- `TrainingManager.__init__`: epoch counters 0, empty metrics, empty dir. -/
def initialState : MState :=
  { current_epoch := 0, total_epochs := 0, current_metrics := {}, training_dir := [] }

/-- The `progress_info` dict emitted through `progress_update`.  `none` means
the key is absent (the exception path at line 453 emits only `output_line`). -/
structure Snapshot where
  output_line : List Char
  current_epoch : Option Nat
  total_epochs : Option Nat
  metrics : Option Metrics
  progress : Option ℚ
  elapsed_time : Option String
  eta : Option String
deriving DecidableEq

/-- The `progress_info` dict as built at lines 337-342: the *pre-line* state
values; these two epoch keys are never reassigned later in the handler. -/
def initSnap (st : MState) (line : List Char) : Snapshot :=
  { output_line := line, current_epoch := some st.current_epoch,
    total_epochs := some st.total_epochs, metrics := some st.current_metrics,
    progress := none, elapsed_time := none, eta := none }

/-- The dict emitted on the exception path (line 453): only `output_line`. -/
def errSnap (line : List Char) : Snapshot :=
  { output_line := line, current_epoch := none, total_epochs := none,
    metrics := none, progress := none, elapsed_time := none, eta := none }

/-! ### The per-line handler, stage by stage -/

/-- Lines 344-351: output-directory capture.  Overwrites `self.training_dir`
on *every* line containing the substring; if the path regex fails the inner
`except` substitutes the default `"runs/train/exp"`. -/
def stepResults (st : MState) (cs : List Char) : MState :=
  if containsSub "Results saved to".data cs then
    { st with training_dir := (resultsSearch cs).getD "runs/train/exp".data }
  else st

/-- Lines 382-399: tail of the epoch branch after a successful `float(loss)`
and progress computation: time extraction, then `current_metrics['loss']`
update and `progress_info['metrics']` refresh. -/
def finishEpoch (st1 : MState) (snap : Snapshot) (cs : List Char) (loss : ℚ) :
    MState × Snapshot :=
  let snap2 :=
    match timeGroups cs with
    | some (em, es, rm, rs) =>
      { snap with elapsed_time := some (pyTDStr em es), eta := some (pyTDStr rm rs) }
    | none => snap
  let m := { st1.current_metrics with loss := some loss }
  ({ st1 with current_metrics := m }, { snap2 with metrics := some m })

/-- Lines 353-399: the structured epoch-line branch.  On a match the epoch
counters are overwritten *before* `float(loss)` (line 365) or the batch
division (line 378) can raise; a raise propagates the partially-updated state
to the outer `except` (modelled as `Except.error`). -/
def stepEpoch (st : MState) (snap : Snapshot) (cs : List Char) :
    Except MState (MState × Snapshot) :=
  match epochGroups cs with
  | none => .ok (st, snap)
  | some (ce, te, g3, _pct, cb, tb) =>
    let st1 : MState := { st with current_epoch := ce, total_epochs := te }
    match pyFloatQ g3 with
    | none => .error st1
    | some loss =>
      if 0 < ce ∧ 0 < te then
        if tb = 0 then .error st1
        else
          let prog : ℚ :=
            (((ce : ℚ) - 1) / (te : ℚ) + ((cb : ℚ) / (tb : ℚ)) / (te : ℚ)) * 100
          .ok (finishEpoch st1 { snap with progress := some prog } cs loss)
      else .ok (finishEpoch st1 snap cs loss)

/-- Common shape of the three two-number metric branches (lines 407-445):
match, `float()` both groups (a raise leaves the state of this branch
untouched), then overwrite metric keys and refresh the snapshot's metrics. -/
def stepTwoMetrics (groups : List Char → Option (List Char × List Char))
    (upd : Metrics → ℚ → ℚ → Metrics) (st : MState) (snap : Snapshot)
    (cs : List Char) : Except MState (MState × Snapshot) :=
  match groups cs with
  | none => .ok (st, snap)
  | some (g1, g2) =>
    match pyFloatQ g1, pyFloatQ g2 with
    | some a, some b =>
      let m := upd st.current_metrics a b
      .ok ({ st with current_metrics := m }, { snap with metrics := some m })
    | _, _ => .error st

/-- Lines 407-423: final validation metrics, with the detection-style aliases. -/
def stepFinal : MState → Snapshot → List Char → Except MState (MState × Snapshot) :=
  stepTwoMetrics finalGroups (fun m a b =>
    { m with
      top1_acc := some a,
      top5_acc := some b,
      mAP50_95 := some a,
      precision := some a,
      «recall» := some b })

/-- Lines 425-434: detection/segmentation mAP values. -/
def stepMap : MState → Snapshot → List Char → Except MState (MState × Snapshot) :=
  stepTwoMetrics mapGroups (fun m a b => { m with mAP50_95 := some a, mAP50 := some b })

/-- Lines 436-445: precision/recall values. -/
def stepPr : MState → Snapshot → List Char → Except MState (MState × Snapshot) :=
  stepTwoMetrics prGroups (fun m a b => { m with precision := some a, «recall» := some b })

/-- The body of the outer `try` (lines 335-448), threading the state through
the stages in source order; `Except.error` carries the state as mutated up to
the point of the raise. -/
def processLineCore (st : MState) (line : List Char) :
    Except MState (MState × Snapshot) :=
  match stepEpoch (stepResults st line) (initSnap st line) line with
  | .error s => .error s
  | .ok r2 =>
    match stepFinal r2.1 r2.2 line with
    | .error s => .error s
    | .ok r3 =>
      match stepMap r3.1 r3.2 line with
      | .error s => .error s
      | .ok r4 => stepPr r4.1 r4.2 line

/-- `process_progress_line` in full: the `try` body, and the `except` handler
(lines 450-453) which emits a dict holding only the raw line.  Exactly one
snapshot is emitted per input line. -/
def processLine (st : MState) (line : List Char) : MState × Snapshot :=
  match processLineCore st line with
  | .ok r => r
  | .error st' => (st', errSnap line)

/-- `true` iff the `try` body ran to completion (no exception was caught). -/
def isOkE {ε α : Type} : Except ε α → Bool
  | .ok _ => true
  | .error _ => false

/-! ### Terminal-outcome reporting of `TrainingThread.run` -/

/-- The terminal events a run can emit: `finished(success)` (lines 70-73) or
`error(message)` (line 76).  Exactly one is emitted per run. -/
inductive Terminal where
  | finished (success : Bool)
  | errored (msg : String)
deriving DecidableEq

/-- Lines 36-76 of training.py, reduced to outcome classification: if the
launch raises, `error(str(e))`; otherwise `finished(True)` exactly when
`exit_code == 0 and not self.stopped`, else `finished(False)`. -/
def threadTerminal (launch : Except String Int) (stopped : Bool) : Terminal :=
  match launch with
  | .error e => .errored e
  | .ok code => .finished (code == 0 && !stopped)

/-! ### Frame lemmas for the per-line stages -/

/-- A line without the `Results saved to` substring leaves the directory
capture stage inert. -/
theorem stepResults_of_not_contains {st : MState} {cs : List Char}
    (h : containsSub "Results saved to".data cs = false) :
    stepResults st cs = st := by
  unfold stepResults
  rw [h]
  simp

/-- A line with the substring and a successful path extraction overwrites
`training_dir` with the captured path, whatever it held before. -/
theorem stepResults_of_found {st : MState} {cs p : List Char}
    (hc : containsSub "Results saved to".data cs = true)
    (hp : resultsSearch cs = some p) :
    stepResults st cs = { st with training_dir := p } := by
  unfold stepResults
  rw [hc, hp]
  simp

/-- `finishEpoch` keeps the snapshot's raw line. -/
theorem finishEpoch_snd_output (st1 : MState) (snap : Snapshot) (cs : List Char)
    (loss : ℚ) : (finishEpoch st1 snap cs loss).2.output_line = snap.output_line := by
  unfold finishEpoch
  cases htg : timeGroups cs with
  | none => simp
  | some q =>
    obtain ⟨em, es, rm, rs⟩ := q
    simp

/-- `finishEpoch` keeps the snapshot's (pre-line) `current_epoch` key. -/
theorem finishEpoch_snd_ce (st1 : MState) (snap : Snapshot) (cs : List Char)
    (loss : ℚ) : (finishEpoch st1 snap cs loss).2.current_epoch = snap.current_epoch := by
  unfold finishEpoch
  cases htg : timeGroups cs with
  | none => simp
  | some q =>
    obtain ⟨em, es, rm, rs⟩ := q
    simp

/-- `finishEpoch` keeps the snapshot's (pre-line) `total_epochs` key. -/
theorem finishEpoch_snd_te (st1 : MState) (snap : Snapshot) (cs : List Char)
    (loss : ℚ) : (finishEpoch st1 snap cs loss).2.total_epochs = snap.total_epochs := by
  unfold finishEpoch
  cases htg : timeGroups cs with
  | none => simp
  | some q =>
    obtain ⟨em, es, rm, rs⟩ := q
    simp

/-- `finishEpoch` keeps the snapshot's `progress` key. -/
theorem finishEpoch_snd_progress (st1 : MState) (snap : Snapshot) (cs : List Char)
    (loss : ℚ) : (finishEpoch st1 snap cs loss).2.progress = snap.progress := by
  unfold finishEpoch
  cases htg : timeGroups cs with
  | none => simp
  | some q =>
    obtain ⟨em, es, rm, rs⟩ := q
    simp

/-- `finishEpoch` keeps the training directory. -/
theorem finishEpoch_fst_dir (st1 : MState) (snap : Snapshot) (cs : List Char)
    (loss : ℚ) : (finishEpoch st1 snap cs loss).1.training_dir = st1.training_dir := by
  unfold finishEpoch
  cases htg : timeGroups cs with
  | none => simp
  | some q =>
    obtain ⟨em, es, rm, rs⟩ := q
    simp

/-- On success the epoch branch never changes the snapshot's raw line or its
(pre-line) epoch fields, nor the training directory. -/
theorem stepEpoch_ok_frame {st : MState} {snap : Snapshot} {cs : List Char}
    {r : MState × Snapshot} (h : stepEpoch st snap cs = .ok r) :
    r.2.output_line = snap.output_line ∧
    r.2.current_epoch = snap.current_epoch ∧
    r.2.total_epochs = snap.total_epochs ∧
    r.1.training_dir = st.training_dir := by
  unfold stepEpoch at h
  split at h
  · injection h with h'
    subst h'
    exact ⟨rfl, rfl, rfl, rfl⟩
  · rename_i ce te g3 pct cb tb heq
    split at h
    · exact (Except.noConfusion h)
    · rename_i loss hL
      split at h
      · split at h
        · exact (Except.noConfusion h)
        · injection h with h'
          subst h'
          refine ⟨?_, ?_, ?_, ?_⟩ <;>
            simp [finishEpoch_snd_output, finishEpoch_snd_ce, finishEpoch_snd_te,
              finishEpoch_fst_dir]
      · injection h with h'
        subst h'
        refine ⟨?_, ?_, ?_, ?_⟩ <;>
          simp [finishEpoch_snd_output, finishEpoch_snd_ce, finishEpoch_snd_te,
            finishEpoch_fst_dir]

/-- On a raise inside the epoch branch the propagated state keeps the
training directory (only the epoch counters were touched, lines 361-362). -/
theorem stepEpoch_err_frame {st : MState} {snap : Snapshot} {cs : List Char}
    {s : MState} (h : stepEpoch st snap cs = .error s) :
    s.training_dir = st.training_dir := by
  unfold stepEpoch at h
  split at h
  · exact (Except.noConfusion h)
  · rename_i ce te g3 pct cb tb heq
    split at h
    · injection h with h'
      subst h'
      rfl
    · rename_i loss hL
      split at h
      · split at h
        · injection h with h'
          subst h'
          rfl
        · exact (Except.noConfusion h)
      · exact (Except.noConfusion h)

/-- On success a two-number metric branch changes only the metrics (of state
and snapshot): raw line, epoch fields, progress, times and the training
directory are untouched. -/
theorem stepTwoMetrics_ok_frame {G : List Char → Option (List Char × List Char)}
    {U : Metrics → ℚ → ℚ → Metrics} {st : MState} {snap : Snapshot}
    {cs : List Char} {r : MState × Snapshot}
    (h : stepTwoMetrics G U st snap cs = .ok r) :
    r.2.output_line = snap.output_line ∧
    r.2.current_epoch = snap.current_epoch ∧
    r.2.total_epochs = snap.total_epochs ∧
    r.2.progress = snap.progress ∧
    r.2.elapsed_time = snap.elapsed_time ∧
    r.2.eta = snap.eta ∧
    r.1.training_dir = st.training_dir ∧
    r.1.current_epoch = st.current_epoch ∧
    r.1.total_epochs = st.total_epochs := by
  unfold stepTwoMetrics at h
  split at h
  · injection h with h'
    subst h'
    exact ⟨rfl, rfl, rfl, rfl, rfl, rfl, rfl, rfl, rfl⟩
  · split at h
    · injection h with h'
      subst h'
      exact ⟨rfl, rfl, rfl, rfl, rfl, rfl, rfl, rfl, rfl⟩
    · exact (Except.noConfusion h)

/-- A raise inside a two-number metric branch (a `float()` failure) leaves
the state exactly as it was. -/
theorem stepTwoMetrics_err_frame {G : List Char → Option (List Char × List Char)}
    {U : Metrics → ℚ → ℚ → Metrics} {st : MState} {snap : Snapshot}
    {cs : List Char} {s : MState}
    (h : stepTwoMetrics G U st snap cs = .error s) :
    s = st := by
  unfold stepTwoMetrics at h
  split at h
  · exact (Except.noConfusion h)
  · split at h
    · exact (Except.noConfusion h)
    · injection h with h'
      exact h'.symm

/-- A two-number metric branch whose pattern does not match is the identity. -/
theorem stepTwoMetrics_none {G : List Char → Option (List Char × List Char)}
    {U : Metrics → ℚ → ℚ → Metrics} {st : MState} {snap : Snapshot}
    {cs : List Char} (h : G cs = none) :
    stepTwoMetrics G U st snap cs = .ok (st, snap) := by
  unfold stepTwoMetrics
  rw [h]

/-- `stepFinal` is the identity when the final-metrics pattern fails. -/
theorem stepFinal_none {st : MState} {snap : Snapshot} {cs : List Char}
    (h : searchRE finalRE cs = none) :
    stepFinal st snap cs = .ok (st, snap) :=
  stepTwoMetrics_none (by unfold finalGroups; rw [h])

/-- `stepMap` is the identity when the mAP pattern fails. -/
theorem stepMap_none {st : MState} {snap : Snapshot} {cs : List Char}
    (h : searchRE mapRE cs = none) :
    stepMap st snap cs = .ok (st, snap) :=
  stepTwoMetrics_none (by unfold mapGroups; rw [h])

/-- `stepPr` is the identity when the precision/recall pattern fails. -/
theorem stepPr_none {st : MState} {snap : Snapshot} {cs : List Char}
    (h : searchRE prRE cs = none) :
    stepPr st snap cs = .ok (st, snap) :=
  stepTwoMetrics_none (by unfold prGroups; rw [h])

/-- An epoch branch whose pattern does not match is the identity. -/
theorem stepEpoch_none {st : MState} {snap : Snapshot} {cs : List Char}
    (h : epochGroups cs = none) :
    stepEpoch st snap cs = .ok (st, snap) := by
  unfold stepEpoch
  rw [h]

/-! ### The claims -/

/-- **C1** (corrected).  The spec claims three mutually exclusive terminal
classifications — `Succeeded` (exit 0, no stop), `Failed` (nonzero exit, no
stop) and `Cancelled` (stop requested, never reported as `Failed`).  The code
reports a single boolean `finished` event: `finished(True)` exactly when the
exit code is 0 and stop was not requested, and `finished(False)` in every
other case — a stopped run is reported with the *same* event as a failed run,
and a stopped run whose process still exits 0 is also reported `False`. -/
theorem C1_terminal_classification (code : Int) (stopped : Bool) :
    (threadTerminal (.ok code) stopped = .finished true ↔ code = 0 ∧ stopped = false) ∧
    (¬(code = 0 ∧ stopped = false) →
      threadTerminal (.ok code) stopped = .finished false) := by
  cases stopped <;> simp [threadTerminal]

/-- Witness for `C1_terminal_classification` at exit code 3, no stop. -/
theorem C1_terminal_classification_witness :
    threadTerminal (.ok 3) false = .finished false :=
  (C1_terminal_classification 3 false).2 (by decide)

/-- Counterexample to **C1** as stated: the terminal event of a stopped run
with exit code 5 is literally the same event as that of a non-stopped failed
run with exit code 5 (so `Cancelled` is not distinct from `Failed`), and a
stopped run with exit code 0 is likewise reported `finished(False)`. -/
theorem C1_cancelled_not_distinct :
    threadTerminal (.ok 5) true = threadTerminal (.ok 5) false ∧
    threadTerminal (.ok 0) true = .finished false := by
  decide

/-- Modelled from the spec: the fallback ETA policy of §4.2 — outside the
structured epoch-line case, when only the epoch counters are known,
`eta = (elapsed / current_epoch) × (total_epochs − current_epoch)`, undefined
("computing", here `none`) while `current_epoch == 0`.  `src/training.py`
computes an ETA only inside the structured epoch branch (lines 382-395); the
fallback belongs to the training-manager revisions of this repository that
are not part of `src/`. -/
def etaFallback (elapsed : ℚ) (current_epoch total_epochs : Nat) : Option ℚ :=
  if current_epoch = 0 then none
  else some (elapsed / (current_epoch : ℚ) * ((total_epochs : ℚ) - (current_epoch : ℚ)))

/-- **C8** (spec-modelled).  The fallback ETA equals
`(elapsed / current_epoch) × (total_epochs − current_epoch)` whenever
`current_epoch > 0`, and is undefined while `current_epoch == 0`. -/
theorem C8_eta_fallback (e : ℚ) (ce te : Nat) :
    (0 < ce → etaFallback e ce te = some (e / (ce : ℚ) * ((te : ℚ) - (ce : ℚ)))) ∧
    (ce = 0 → etaFallback e ce te = none) := by
  constructor
  · intro h
    simp [etaFallback, Nat.pos_iff_ne_zero.mp h]
  · intro h
    simp [etaFallback, h]

/-- Witness for `C8_eta_fallback`: elapsed 10, epoch 2 of 5 gives
`10/2 × (5−2) = 15`; epoch 0 gives no estimate. -/
theorem C8_eta_fallback_witness :
    etaFallback 10 2 5 = some (10 / (2 : ℚ) * ((5 : ℚ) - (2 : ℚ))) ∧
    etaFallback 10 0 5 = none :=
  ⟨(C8_eta_fallback 10 2 5).1 (by norm_num), (C8_eta_fallback 10 0 5).2 rfl⟩

/-- **C9** (confirmed).  Whatever the line and the accumulated state, the
handler emits exactly one snapshot and its `output_line` key is the raw line
— also on the exception path, where the snapshot holds only that key. -/
theorem C9_line_always_echoed (st : MState) (line : List Char) :
    (processLine st line).2.output_line = line := by
  unfold processLine processLineCore
  cases hE : stepEpoch (stepResults st line) (initSnap st line) line with
  | error s => simp [errSnap]
  | ok r2 =>
    cases hF : stepFinal r2.1 r2.2 line with
    | error s => simp [hF, errSnap]
    | ok r3 =>
      cases hM : stepMap r3.1 r3.2 line with
      | error s => simp [hF, hM, errSnap]
      | ok r4 =>
        cases hP : stepPr r4.1 r4.2 line with
        | error s => simp [hF, hM, hP, errSnap]
        | ok r5 =>
          have e2 := (stepEpoch_ok_frame hE).1
          have e3 := (stepTwoMetrics_ok_frame hF).1
          have e4 := (stepTwoMetrics_ok_frame hM).1
          have e5 := (stepTwoMetrics_ok_frame hP).1
          simp [hF, hM, hP, e5, e4, e3, e2, initSnap]

/-- **C4** (confirmed).  A line matching none of the recognized shapes leaves
the accumulated state unchanged and the emitted snapshot carries exactly the
prior state's values together with the raw line. -/
theorem C4_unrecognized_line_is_frame (st : MState) (line : List Char)
    (h1 : containsSub "Results saved to".data line = false)
    (h2 : matchAt epochRE line = none)
    (h3 : searchRE finalRE line = none)
    (h4 : searchRE mapRE line = none)
    (h5 : searchRE prRE line = none) :
    processLine st line = (st, initSnap st line) ∧
    (processLine st line).2.metrics = some st.current_metrics ∧
    (processLine st line).2.current_epoch = some st.current_epoch ∧
    (processLine st line).2.total_epochs = some st.total_epochs ∧
    (processLine st line).2.output_line = line := by
  have hg2 : epochGroups line = none := by
    unfold epochGroups
    rw [h2]
  have heq : processLine st line = (st, initSnap st line) := by
    unfold processLine processLineCore
    rw [stepResults_of_not_contains h1]
    simp only [stepEpoch_none hg2, stepFinal_none h3, stepMap_none h4, stepPr_none h5]
  exact ⟨heq, by rw [heq]; rfl, by rw [heq]; rfl, by rw [heq]; rfl, by rw [heq]; rfl⟩

/-- Witness for `C4_unrecognized_line_is_frame` on the line `"hello"`. -/
theorem C4_unrecognized_line_is_frame_witness :
    processLine initialState "hello".data = (initialState, initSnap initialState "hello".data) :=
  (C4_unrecognized_line_is_frame initialState "hello".data (by decide) (by decide)
    (by decide) (by decide) (by decide)).1

/-- **C7** (corrected, amended part).  `training_dir` is overwritten by
*every* line containing `Results saved to` whose path extraction succeeds:
whatever the state held before, after the line it holds the newly captured
path (so the field is last-write-wins, not write-once). -/
theorem C7_output_dir_overwritten (st : MState) (line p : List Char)
    (hc : containsSub "Results saved to".data line = true)
    (hp : resultsSearch line = some p) :
    (processLine st line).1.training_dir = p := by
  unfold processLine processLineCore
  rw [stepResults_of_found hc hp]
  cases hE : stepEpoch { st with training_dir := p } (initSnap st line) line with
  | error s =>
    simp only [hE]
    exact stepEpoch_err_frame hE
  | ok r2 =>
    have d2 : r2.1.training_dir = p := (stepEpoch_ok_frame hE).2.2.2
    cases hF : stepFinal r2.1 r2.2 line with
    | error s =>
      simp only [hE, hF]
      rw [stepTwoMetrics_err_frame hF]
      exact d2
    | ok r3 =>
      have d3 : r3.1.training_dir = p := by
        obtain ⟨_, _, _, _, _, _, hd, _, _⟩ := stepTwoMetrics_ok_frame hF
        rw [hd]
        exact d2
      cases hM : stepMap r3.1 r3.2 line with
      | error s =>
        simp only [hE, hF, hM]
        rw [stepTwoMetrics_err_frame hM]
        exact d3
      | ok r4 =>
        have d4 : r4.1.training_dir = p := by
          obtain ⟨_, _, _, _, _, _, hd, _, _⟩ := stepTwoMetrics_ok_frame hM
          rw [hd]
          exact d3
        cases hP : stepPr r4.1 r4.2 line with
        | error s =>
          simp only [hE, hF, hM, hP]
          rw [stepTwoMetrics_err_frame hP]
          exact d4
        | ok r5 =>
          simp only [hE, hF, hM, hP]
          obtain ⟨_, _, _, _, _, _, hd, _, _⟩ := stepTwoMetrics_ok_frame hP
          rw [hd]
          exact d4

/-- Witness for `C7_output_dir_overwritten`: a state whose directory was
already `runs/a` still ends up with `runs/b` after a second discovery line. -/
theorem C7_output_dir_overwritten_witness :
    (processLine
      { current_epoch := 0, total_epochs := 0, current_metrics := {},
        training_dir := "runs/a".data }
      "Results saved to runs/b".data).1.training_dir = "runs/b".data :=
  C7_output_dir_overwritten _ _ _ (by decide) (by decide)

/-- Counterexample to **C7** as stated ("set at most once per run"): after a
first line records `runs/a`, a later `Results saved to runs/b` line *changes*
`training_dir` to `runs/b`. -/
theorem C7_output_dir_not_write_once :
    (processLine initialState "Results saved to runs/a".data).1.training_dir
      = "runs/a".data ∧
    (processLine (processLine initialState "Results saved to runs/a".data).1
        "Results saved to runs/b".data).1.training_dir = "runs/b".data ∧
    "runs/b".data ≠ "runs/a".data := by
  exact ⟨by decide, by decide, by decide⟩

/-- **C10** (corrected, amended part).  When the `try` body raises, the
emitted snapshot holds only the `output_line` key — every other key is
absent — and the state is whatever the body had mutated it to so far. -/
theorem C10_exception_snapshot_bare (st : MState) (line : List Char) (s : MState)
    (h : processLineCore st line = .error s) :
    processLine st line = (s, errSnap line) ∧
    (processLine st line).2.current_epoch = none ∧
    (processLine st line).2.total_epochs = none ∧
    (processLine st line).2.metrics = none ∧
    (processLine st line).2.progress = none ∧
    (processLine st line).2.output_line = line := by
  have heq : processLine st line = (s, errSnap line) := by
    unfold processLine
    rw [h]
  exact ⟨heq, by rw [heq]; rfl, by rw [heq]; rfl, by rw [heq]; rfl,
    by rw [heq]; rfl, by rw [heq]; rfl⟩

/-- The sample epoch line with a zero total batch count: the epoch pattern
matches, the epoch counters are overwritten, then `current_batch/total_batch`
raises `ZeroDivisionError`. -/
def batchZeroLine : List Char :=
  "5/100 1.2G 0.431 16 640: 50%|x| 45/0 [00:30<00:30,".data

/-- Witness for `C10_exception_snapshot_bare` on `batchZeroLine`. -/
theorem C10_exception_snapshot_bare_witness :
    (processLine initialState batchZeroLine).2.metrics = none ∧
    (processLine initialState batchZeroLine).2.current_epoch = none :=
  ⟨(C10_exception_snapshot_bare initialState batchZeroLine
      { current_epoch := 5, total_epochs := 100, current_metrics := {},
        training_dir := [] } rfl).2.2.2.1,
   (C10_exception_snapshot_bare initialState batchZeroLine
      { current_epoch := 5, total_epochs := 100, current_metrics := {},
        training_dir := [] } rfl).2.1⟩

/-- Counterexample to **C10** as stated: on `batchZeroLine` the division by
zero is raised only *after* lines 361-362 overwrote the epoch counters, so
the failed processing does change the accumulated state (epoch 0 → 5). -/
theorem C10_state_mutated_before_exception :
    (processLine initialState batchZeroLine).1.current_epoch = 5 ∧
    initialState.current_epoch = 0 ∧
    (processLine initialState batchZeroLine).1.total_epochs = 100 ∧
    (processLine initialState batchZeroLine).2.metrics = none := by
  exact ⟨by decide, rfl, by decide, by decide⟩

/-- Exact value of the epoch branch when the pattern matches, the loss
parses, both epoch counters are positive and the batch divisor is nonzero
(lines 357-399 with no exception). -/
theorem stepEpoch_progress (st : MState) (snap : Snapshot) {cs g3 : List Char}
    {ce te pct cb tb : Nat} {L : ℚ}
    (hg : epochGroups cs = some (ce, te, g3, pct, cb, tb))
    (hL : pyFloatQ g3 = some L) (hce : 0 < ce) (hte : 0 < te) (htb : ¬ tb = 0) :
    stepEpoch st snap cs =
      .ok (finishEpoch { st with current_epoch := ce, total_epochs := te }
        { snap with progress := some ((((ce : ℚ) - 1) / (te : ℚ) +
            ((cb : ℚ) / (tb : ℚ)) / (te : ℚ)) * 100) } cs L) := by
  unfold stepEpoch
  simp only [hg, hL]
  rw [if_pos ⟨hce, hte⟩, if_neg htb]

/-- When the epoch stage succeeds, the remaining stages keep the snapshot's
`progress`, `elapsed_time` and `eta` keys (they only touch metrics). -/
theorem processLine_ok_tail {st : MState} {line : List Char} {r2 : MState × Snapshot}
    (hE : stepEpoch (stepResults st line) (initSnap st line) line = .ok r2)
    (hok : isOkE (processLineCore st line) = true) :
    (processLine st line).2.progress = r2.2.progress ∧
    (processLine st line).2.elapsed_time = r2.2.elapsed_time ∧
    (processLine st line).2.eta = r2.2.eta := by
  unfold processLine processLineCore
  unfold processLineCore at hok
  simp only [hE] at hok ⊢
  cases hF : stepFinal r2.1 r2.2 line with
  | error s => simp [hF, isOkE] at hok
  | ok r3 =>
    simp only [hF] at hok ⊢
    cases hM : stepMap r3.1 r3.2 line with
    | error s => simp [hM, isOkE] at hok
    | ok r4 =>
      simp only [hM] at hok ⊢
      cases hP : stepPr r4.1 r4.2 line with
      | error s => simp [hP, isOkE] at hok
      | ok r5 =>
        simp only [hP]
        obtain ⟨_, _, _, p3, e3, t3, _, _, _⟩ := stepTwoMetrics_ok_frame hF
        obtain ⟨_, _, _, p4, e4, t4, _, _, _⟩ := stepTwoMetrics_ok_frame hM
        obtain ⟨_, _, _, p5, e5, t5, _, _, _⟩ := stepTwoMetrics_ok_frame hP
        exact ⟨by rw [p5, p4, p3], by rw [e5, e4, e3], by rw [t5, t4, t3]⟩

/-- **C2** (corrected, amended part).  For a structured epoch line whose loss
field parses, with `current_epoch > 0`, `total_epochs > 0` and
`total_batch > 0`, and with the rest of the handler raising no exception, the
emitted snapshot's progress equals
`((current_epoch − 1) + current_batch/total_batch) / total_epochs × 100`. -/
theorem C2_progress_weighted_formula (st : MState) (line g3 : List Char)
    (ce te pct cb tb : Nat) (L : ℚ)
    (hg : epochGroups line = some (ce, te, g3, pct, cb, tb))
    (hL : pyFloatQ g3 = some L) (hce : 0 < ce) (hte : 0 < te) (htb : 0 < tb)
    (hok : isOkE (processLineCore st line) = true) :
    (processLine st line).2.progress =
      some ((((ce : ℚ) - 1) + (cb : ℚ) / (tb : ℚ)) / (te : ℚ) * 100) := by
  have hE := stepEpoch_progress (stepResults st line) (initSnap st line)
    hg hL hce hte (Nat.pos_iff_ne_zero.mp htb)
  obtain ⟨hp, -, -⟩ := processLine_ok_tail hE hok
  rw [hp, finishEpoch_snd_progress]
  exact congrArg some (by ring)

/-- The structured epoch line used for the witness of `C2`. -/
def epochPlainLine : List Char :=
  "5/100 1.2G 0.431 16 640: 50%|ab| 45/90 [00:30<00:30,".data

/-- Witness for `C2_progress_weighted_formula`: epoch 5/100 at batch 45/90
gives `((5−1)+45/90)/100×100 = 4.5`. -/
theorem C2_progress_weighted_formula_witness :
    (processLine initialState epochPlainLine).2.progress =
      some ((((5 : ℕ) : ℚ) - 1 + ((45 : ℕ) : ℚ) / ((90 : ℕ) : ℚ)) /
        ((100 : ℕ) : ℚ) * 100) ∧
    (((5 : ℕ) : ℚ) - 1 + ((45 : ℕ) : ℚ) / ((90 : ℕ) : ℚ)) /
        ((100 : ℕ) : ℚ) * 100 = 9 / 2 :=
  ⟨C2_progress_weighted_formula initialState epochPlainLine "0.431".data 5 100 50 45 90
      ((0 : ℚ) + ((431 : ℕ) : ℚ) / ((10 : ℚ) ^ (3 : ℕ)))
      (by decide) rfl (by decide) (by decide) (by decide) rfl,
   by norm_num⟩

/-- Counterexample to **C2** as stated ("whenever `total_epochs > 0`"): a
structured line reporting epoch `0/100` matches the pattern with
`total_epochs = 100 > 0`, yet the code's guard `current_epoch > 0` fails and
no `progress` key is emitted at all. -/
theorem C2_no_progress_when_epoch_zero :
    epochGroups ("0/100 1.2G 0.431 16 640: 50%|ab| 45/90 [00:30<00:30,".data) =
      some (0, 100, "0.431".data, 50, 45, 90) ∧
    (processLine initialState
      ("0/100 1.2G 0.431 16 640: 50%|ab| 45/90 [00:30<00:30,".data)).2.progress = none := by
  exact ⟨by decide, by decide⟩

/-- Exact value of the final-metrics branch on a match whose two groups parse
(lines 407-423): the two accuracies are stored and aliased onto the
detection-style keys, and the snapshot's metrics are refreshed. -/
theorem stepFinal_eq {st : MState} {snap : Snapshot} {cs g1 g2 : List Char} {x y : ℚ}
    (hf : finalGroups cs = some (g1, g2))
    (h1 : pyFloatQ g1 = some x) (h2 : pyFloatQ g2 = some y) :
    stepFinal st snap cs = .ok
      ({ st with current_metrics := { st.current_metrics with
          top1_acc := some x, top5_acc := some y, mAP50_95 := some x,
          precision := some x, «recall» := some y } },
       { snap with metrics := some { st.current_metrics with
          top1_acc := some x, top5_acc := some y, mAP50_95 := some x,
          precision := some x, «recall» := some y } }) := by
  unfold stepFinal stepTwoMetrics
  simp only [hf, h1, h2]

/-- **C5** (corrected, amended part).  On a line matching the final
validation-metrics shape — and not also matching the later mAP or
precision/recall shapes, which would overwrite the aliases — with no
exception elsewhere in the handler, the resulting metrics hold
`top1_acc = x`, `top5_acc = y` and the aliases `mAP50-95 = x`,
`precision = x`, `recall = y`, and the snapshot carries them. -/
theorem C5_final_metrics_aliased (st : MState) (line g1 g2 : List Char) (x y : ℚ)
    (hf : finalGroups line = some (g1, g2))
    (h1 : pyFloatQ g1 = some x) (h2 : pyFloatQ g2 = some y)
    (hm : searchRE mapRE line = none) (hp : searchRE prRE line = none)
    (hok : isOkE (processLineCore st line) = true) :
    (processLine st line).2.metrics = some (processLine st line).1.current_metrics ∧
    (processLine st line).1.current_metrics.top1_acc = some x ∧
    (processLine st line).1.current_metrics.top5_acc = some y ∧
    (processLine st line).1.current_metrics.mAP50_95 = some x ∧
    (processLine st line).1.current_metrics.precision = some x ∧
    (processLine st line).1.current_metrics.«recall» = some y := by
  unfold processLine processLineCore
  unfold processLineCore at hok
  cases hE : stepEpoch (stepResults st line) (initSnap st line) line with
  | error s => simp [hE, isOkE] at hok
  | ok r2 =>
    simp only [hE] at hok ⊢
    rw [stepFinal_eq hf h1 h2]
    simp only [stepMap_none hm, stepPr_none hp]
    exact ⟨trivial, trivial, trivial, trivial, trivial, trivial⟩

/-- Witness for `C5_final_metrics_aliased` on the line `all 0.911 0.983`. -/
theorem C5_final_metrics_aliased_witness :
    (processLine initialState "all 0.911 0.983".data).1.current_metrics.top1_acc =
      some ((0 : ℚ) + ((911 : ℕ) : ℚ) / ((10 : ℚ) ^ (3 : ℕ))) ∧
    (processLine initialState "all 0.911 0.983".data).1.current_metrics.precision =
      some ((0 : ℚ) + ((911 : ℕ) : ℚ) / ((10 : ℚ) ^ (3 : ℕ))) ∧
    (processLine initialState "all 0.911 0.983".data).1.current_metrics.«recall» =
      some ((0 : ℚ) + ((983 : ℕ) : ℚ) / ((10 : ℚ) ^ (3 : ℕ))) ∧
    (0 : ℚ) + ((911 : ℕ) : ℚ) / ((10 : ℚ) ^ (3 : ℕ)) = 911 / 1000 ∧
    (0 : ℚ) + ((983 : ℕ) : ℚ) / ((10 : ℚ) ^ (3 : ℕ)) = 983 / 1000 := by
  obtain ⟨-, ht1, -, -, hpr, hrc⟩ := C5_final_metrics_aliased initialState
    "all 0.911 0.983".data "0.911".data "0.983".data
    ((0 : ℚ) + ((911 : ℕ) : ℚ) / ((10 : ℚ) ^ (3 : ℕ)))
    ((0 : ℚ) + ((983 : ℕ) : ℚ) / ((10 : ℚ) ^ (3 : ℕ)))
    (by decide) rfl rfl (by decide) (by decide) rfl
  exact ⟨ht1, hpr, hrc, by norm_num, by norm_num⟩

/-- A line matching both the final-metrics shape and the precision/recall
shape. -/
def allPrLine : List Char := "all 0.911 0.983 precision 0.500 recall 0.600".data

/-- Counterexample to **C5** as stated: on a line that matches the final
shape with `x = 0.911` but also the precision/recall shape, the later branch
overwrites the alias, leaving `precision = 0.5 ≠ 0.911`. -/
theorem C5_alias_overwritten_same_line :
    finalGroups allPrLine = some ("0.911".data, "0.983".data) ∧
    (processLine initialState allPrLine).1.current_metrics.precision = some (1 / 2) ∧
    (1 / 2 : ℚ) ≠ 911 / 1000 := by
  refine ⟨by decide, ?_, by norm_num⟩
  have h : (processLine initialState allPrLine).1.current_metrics.precision =
      some ((↑(0 : ℕ) : ℚ) + (↑(500 : ℕ) : ℚ) / ((10 : ℚ) ^ (3 : ℕ))) := rfl
  rw [h]
  norm_num

/-- The spec's sample line, verbatim. -/
def sampleLine : List Char :=
  "5/100   1.2G   0.431   16   640:  50%|█████     | 45/90 [00:30<00:30, 1.50it/s]".data

/-- The manager state right after `start_training` with `epochs = 100`
(lines 124-127: counters reset, metrics cleared). -/
def startedState : MState :=
  { current_epoch := 0, total_epochs := 100, current_metrics := {}, training_dir := [] }

/-- **C3** (corrected, amended part).  Processing the spec's exact sample
line updates the manager state to epoch 5/100 with `loss = 0.431`, and the
emitted snapshot carries `loss = 0.431`, `elapsed_time = "0:00:30"`,
`eta = "0:00:30"` (≈30 s each) and `progress = 4.5`; but the snapshot's
`current_epoch`/`total_epochs` keys still hold the pre-line values `0`/`100`,
because the `progress_info` dict is filled at lines 337-342, before the epoch
keys are overwritten, and those two keys are never reassigned. -/
theorem C3_sample_line_roundtrip :
    (processLine startedState sampleLine).1.current_epoch = 5 ∧
    (processLine startedState sampleLine).1.total_epochs = 100 ∧
    (processLine startedState sampleLine).1.current_metrics.loss = some (431 / 1000) ∧
    (processLine startedState sampleLine).2.metrics =
      some (processLine startedState sampleLine).1.current_metrics ∧
    (processLine startedState sampleLine).2.metrics =
      some { loss := some (431 / 1000) } ∧
    (processLine startedState sampleLine).2.elapsed_time = some "0:00:30" ∧
    (processLine startedState sampleLine).2.eta = some "0:00:30" ∧
    (processLine startedState sampleLine).2.progress = some (9 / 2) ∧
    (processLine startedState sampleLine).2.current_epoch = some 0 ∧
    (processLine startedState sampleLine).2.total_epochs = some 100 := by
  refine ⟨rfl, rfl, ?_, rfl, ?_, rfl, rfl, ?_, rfl, rfl⟩
  · have h : (processLine startedState sampleLine).1.current_metrics.loss =
        some ((↑(0 : ℕ) : ℚ) + (↑(431 : ℕ) : ℚ) / ((10 : ℚ) ^ (3 : ℕ))) := rfl
    rw [h]
    norm_num
  · have h : (processLine startedState sampleLine).2.metrics =
        some { loss := some ((↑(0 : ℕ) : ℚ) + (↑(431 : ℕ) : ℚ) / ((10 : ℚ) ^ (3 : ℕ))) } :=
      rfl
    rw [h]
    norm_num [Metrics.mk.injEq]
  · have h : (processLine startedState sampleLine).2.progress =
        some ((((↑(5 : ℕ) : ℚ) - 1) / (↑(100 : ℕ) : ℚ) +
          ((↑(45 : ℕ) : ℚ) / (↑(90 : ℕ) : ℚ)) / (↑(100 : ℕ) : ℚ)) * 100) := rfl
    rw [h]
    norm_num

/-- Counterexample to **C3** as stated: the snapshot produced for the sample
line does *not* contain `current_epoch = 5`; it carries the pre-line value 0
(the parsed 5 lands only in the manager's state). -/
theorem C3_snapshot_lags_parsed_epoch :
    (processLine startedState sampleLine).2.current_epoch = some 0 ∧
    (processLine startedState sampleLine).2.current_epoch ≠ some 5 := by
  exact ⟨rfl, by decide⟩

end Yologui
